import Mathlib

/-!
Shallow embedding of the Call-Analyzer frontend
(`src/frontend/src/pages/Dashboard.js`, `src/frontend/src/pages/CallDetails.js`,
`src/frontend/src/App.js`).

The handlers are `async` functions whose only observable effects are HTTP
requests to the backend, React state updates, toasts, browser navigation and
triggered downloads.  Each handler is embedded as a function from the server's
behaviour (does each awaited request resolve, and with what data) to the list
of observable events, in the order the sequential `await` chain produces them:
an event appears in the list only after every earlier `await` has completed,
so list order is exactly the "awaited to completion before the next is issued"
order of the source.
-/

namespace CallAnalyzer

/-- HTTP method of a request issued through axios. -/
inductive Method
  | get
  | post
deriving DecidableEq, Repr

/-- Backend endpoints the frontend addresses, relative to the `API` base URL
(`BACKEND_URL + "/api"`).  `exportReport id fmt` stands for the path
`export/id/fmt` (the JS identifier `export` is a Lean keyword). -/
inductive Endpoint
  | calls
  | callById (id : String)
  | uploadCall
  | transcribe (id : String)
  | analyze (id : String)
  | exportReport (id : String) (fmt : String)
deriving DecidableEq, Repr

/-- One HTTP request: method, endpoint, and the body payload if any
(the uploaded file travels as multipart form data in the body). -/
structure Request where
  method : Method
  endpoint : Endpoint
  body : Option String
deriving DecidableEq, Repr

/-- Observable client events, in source order of the handlers. -/
inductive Event
  | request (r : Request)
  | setUploading (b : Bool)
  | setUploadProgress (n : Nat)
  | setCalls
  | setCallData
  | setLoading (b : Bool)
  | toastSuccess (msg : String)
  | toastError (msg : String)
  | navigate (path : String)
  | download (payload : String) (filename : String)
deriving DecidableEq, Repr

/-- Requests issued in a trace, in order. -/
def requests (tr : List Event) : List Request :=
  tr.filterMap fun e =>
    match e with
    | .request r => some r
    | _ => none

/-- POST requests issued in a trace, in order. -/
def posts (tr : List Event) : List Request :=
  (requests tr).filter fun r => r.method = Method.post

/-- Values assigned to `uploadProgress` in a trace, in order. -/
def progressValues (tr : List Event) : List Nat :=
  tr.filterMap fun e =>
    match e with
    | .setUploadProgress n => some n
    | _ => none

/-- Paths passed to `navigate` in a trace, in order. -/
def navigations (tr : List Event) : List String :=
  tr.filterMap fun e =>
    match e with
    | .navigate p => some p
    | _ => none

/-- Downloads triggered in a trace: (payload, suggested filename), in order. -/
def downloads (tr : List Event) : List (String × String) :=
  tr.filterMap fun e =>
    match e with
    | .download b f => some (b, f)
    | _ => none

/-- Error-toast messages shown in a trace, in order. -/
def errorToasts (tr : List Event) : List String :=
  tr.filterMap fun e =>
    match e with
    | .toastError m => some m
    | _ => none

/-- The two pieces of Dashboard state the upload pipeline mutates:
`const [uploading, setUploading] = useState(false)` and
`const [uploadProgress, setUploadProgress] = useState(0)`. -/
structure UploadState where
  uploading : Bool
  uploadProgress : Nat
deriving DecidableEq, Repr

/-- Initial Dashboard upload state: `useState(false)`, `useState(0)`. -/
def initState : UploadState := ⟨false, 0⟩

/-- Effect of one event on the upload state. -/
def applyEvent (s : UploadState) : Event → UploadState
  | .setUploading b => { s with uploading := b }
  | .setUploadProgress n => { s with uploadProgress := n }
  | _ => s

/-- State after replaying a trace. -/
def runState (s : UploadState) (tr : List Event) : UploadState :=
  tr.foldl applyEvent s

/-- Server behaviour for one run of the upload pipeline.  `uploadResult` is
`some call_id` when the POST to `upload-call` resolves with that
`response.data.call_id`, `none` when it rejects; `transcribeOk` / `analyzeOk`
say whether the corresponding POST resolves; `fetchCallsOk` whether the
refreshing GET of `calls` resolves; `errDetail` models
`error.response?.data?.detail` of the rejection reaching the catch block. -/
structure PipelineEnv where
  uploadResult : Option String
  transcribeOk : Bool
  analyzeOk : Bool
  fetchCallsOk : Bool
  errDetail : Option String
deriving DecidableEq, Repr

/-- Trace of `fetchCalls` (Dashboard): GET `calls`, then either
`setCalls(response.data)` or its own catch block's error toast. -/
def fetchCalls (ok : Bool) : List Event :=
  [.request ⟨.get, .calls, none⟩] ++
    (if ok then [.setCalls] else [.toastError "Failed to load calls"])

/-- Trace of the catch block of `handleFileUpload`:
`toast.error(error.response?.data?.detail || "Upload failed")`,
`setUploading(false)`, `setUploadProgress(0)`. -/
def uploadCatch (env : PipelineEnv) : List Event :=
  [.toastError (env.errDetail.getD "Upload failed"),
   .setUploading false, .setUploadProgress 0]

/-- Trace of `handleFileUpload` (Dashboard).  `file` is
`event.target.files[0]` (`none` when absent; the handler then returns at
`if (!file) return`).  Otherwise: `setUploading(true)`,
`setUploadProgress(10)`, then inside `try`: `setUploadProgress(30)`, POST
`upload-call` with the file; on resolution `setUploadProgress(50)`, success
toast, POST `transcribe/{callId}`; on resolution `setUploadProgress(75)`,
success toast, POST `analyze/{callId}`; on resolution `setUploadProgress(100)`,
success toast, `await fetchCalls()` (whose rejection is caught inside
`fetchCalls` itself), then after a 1s `setTimeout`: `setUploading(false)`,
`setUploadProgress(0)`, `navigate("/call/" + callId)`.  Any rejection of the
three awaited pipeline requests jumps to the catch block. -/
def handleFileUpload (env : PipelineEnv) (file : Option String) : List Event :=
  match file with
  | none => []
  | some f =>
    [.setUploading true, .setUploadProgress 10,
     .setUploadProgress 30, .request ⟨.post, .uploadCall, some f⟩] ++
    match env.uploadResult with
    | none => uploadCatch env
    | some callId =>
      [.setUploadProgress 50,
       .toastSuccess "File uploaded! Starting transcription...",
       .request ⟨.post, .transcribe callId, none⟩] ++
      if env.transcribeOk then
        [.setUploadProgress 75,
         .toastSuccess "Transcription complete! Analyzing call...",
         .request ⟨.post, .analyze callId, none⟩] ++
        if env.analyzeOk then
          [.setUploadProgress 100, .toastSuccess "Analysis complete!"] ++
          fetchCalls env.fetchCallsOk ++
          [.setUploading false, .setUploadProgress 0,
           .navigate ("/call/" ++ callId)]
        else uploadCatch env
      else uploadCatch env

/-- Trace of `fetchCallDetails` (CallDetails): GET `calls/{callId}`, then
either `setCallData(response.data); setLoading(false)` or the catch block's
error toast followed by `setLoading(false)`. -/
def fetchCallDetails (callId : String) (ok : Bool) : List Event :=
  [.request ⟨.get, .callById callId, none⟩] ++
    (if ok then [.setCallData, .setLoading false]
     else [.toastError "Failed to load call details", .setLoading false])

/-- Trace of `handleExport` (CallDetails).  `response` is `some body` when the
GET of `export/{callId}/{format}` resolves with that blob body, `none` when it
rejects.  On resolution the handler builds a Blob from `response.data`,
creates an `<a>` with `download` attribute
`callData.filename + "_report." + format`, clicks it (one browser download),
and shows a success toast; on rejection the catch block shows an error
toast and nothing else happens. -/
def handleExport (callId : String) (format : String) (filename : String)
    (response : Option String) : List Event :=
  [.request ⟨.get, .exportReport callId format, none⟩] ++
    match response with
    | some body =>
      [.download body (filename ++ "_report." ++ format),
       .toastSuccess ("Report exported as " ++ format.toUpper)]
    | none => [.toastError "Failed to export report"]

/-- Rendering data of a status badge: variant, label, and optional
`className` (the `failed` entry of `statusConfig` carries no `className`). -/
structure BadgeConfig where
  variant : String
  label : String
  className : Option String
deriving DecidableEq, Repr

/-- The `pending` entry of `statusConfig`, the fallback of the lookup. -/
def pendingConfig : BadgeConfig :=
  ⟨"outline", "Pending", some "border-slate-400 text-slate-600"⟩

/-- The OWN entries of the `statusConfig` object literal of `getStatusBadge`
(`none` when the string is not one of the literal's four keys). -/
def statusConfig (s : String) : Option BadgeConfig :=
  if s = "completed" then
    some ⟨"default", "Completed", some "bg-emerald-500 hover:bg-emerald-600"⟩
  else if s = "processing" then
    some ⟨"secondary", "Processing", some "bg-amber-500 hover:bg-amber-600"⟩
  else if s = "pending" then some pendingConfig
  else if s = "failed" then some ⟨"destructive", "Failed", none⟩
  else none

/-- Keys a plain object literal inherits from `Object.prototype`.  JavaScript
bracket access `statusConfig[status]` finds these after missing every own
key, and each holds a truthy value: a function, or for `__proto__` the
`Object.prototype` object itself. -/
def objectProtoKeys : List String :=
  ["constructor", "hasOwnProperty", "isPrototypeOf", "propertyIsEnumerable",
   "toLocaleString", "toString", "valueOf", "__proto__",
   "__defineGetter__", "__defineSetter__", "__lookupGetter__",
   "__lookupSetter__"]

/-- A truthy value the access `statusConfig[status]` can take: an own entry
of the literal (a badge config) or a value inherited from
`Object.prototype`, which carries neither `label` nor `className`. -/
inductive ConfigValue
  | ownEntry (c : BadgeConfig)
  | protoProperty
deriving DecidableEq, Repr

/-- The bracket access `statusConfig[status]`: the literal's own keys first,
then the prototype chain; `none` is `undefined`. -/
def statusLookup (s : String) : Option ConfigValue :=
  match statusConfig s with
  | some c => some (.ownEntry c)
  | none => if s ∈ objectProtoKeys then some .protoProperty else none

/-- `getStatusBadge` (Dashboard):
`const config = statusConfig[status] || statusConfig.pending`; `status` is
`none` when the call record carries no `analysis_status` (then the access
yields `undefined`).  Every inherited `Object.prototype` value is truthy, so
the `||` fallback fires only when the access yields `undefined`. -/
def getStatusBadge (status : Option String) : ConfigValue :=
  (status.bind statusLookup).getD (.ownEntry pendingConfig)

/-- The `config.label` the badge body renders; `none` is `undefined`, the
result of reading `label` off an inherited function or object. -/
def badgeLabel : ConfigValue → Option String
  | .ownEntry c => some c.label
  | .protoProperty => none

/-- A call record as the Dashboard table consumes it.  `overall_score` is the
backend's 0-100 numeric score (`none` when the field is absent), modelled in
ℚ; `analysis_status` is the server lifecycle label. -/
structure Call where
  id : String
  filename : String
  analysis_status : Option String
  overall_score : Option ℚ
deriving DecidableEq, Repr

/-- JavaScript truthiness of `call.overall_score`: `undefined` and `0` are
falsy, every other number truthy. -/
def hasTruthyScore (c : Call) : Bool :=
  match c.overall_score with
  | none => false
  | some q => q ≠ 0

/-- Score cell of the Dashboard table: when `call.overall_score` is truthy
it renders the interpolated score followed by `/100`, otherwise a dash.  For
integer scores the rendered string equals JavaScript's formatting of the
number (`toString` of a denominator-1 rational prints its numerator);
JavaScript's decimal formatting of non-integer numbers is not modelled. -/
def renderScore (c : Call) : String :=
  if hasTruthyScore c then (toString (c.overall_score.getD 0)) ++ "/100"
  else "-"

/-- The list `calls.filter(c => c.overall_score)` used (twice) inside
`stats.avgScore`. -/
def scoredCalls (calls : List Call) : List Call :=
  calls.filter hasTruthyScore

/-- The numerator `calls.filter(c => c.overall_score).reduce((sum, c) => sum + c.overall_score, 0)`. -/
def scoreSum (calls : List Call) : ℚ :=
  (scoredCalls calls).foldl (fun sum c => sum + c.overall_score.getD 0) 0

/-- The divisor `calls.filter(c => c.overall_score).length` of the average. -/
def avgDivisor (calls : List Call) : Nat :=
  (scoredCalls calls).length

/-- The guard under which the division of `stats.avgScore` is evaluated:
`calls.length > 0`. -/
def avgDivisionEvaluated (calls : List Call) : Prop :=
  calls.length > 0

/-- `Math.round`: round half toward positive infinity. -/
def jsRound (q : ℚ) : ℤ := ⌊q + 1 / 2⌋

/-- `stats.avgScore`: `calls.length > 0 ? Math.round(sum / count) : 0`.
`none` models `NaN`, which the division produces when the filtered list is
empty (`0 / 0` in JS is `NaN`, and `Math.round(NaN)` is `NaN`). -/
def avgScore (calls : List Call) : Option ℤ :=
  if calls.length > 0 then
    if avgDivisor calls = 0 then none
    else some (jsRound (scoreSum calls / (avgDivisor calls : ℚ)))
  else some 0

/-- The Average Score figure the stats card renders: `stats.avgScore || 0`;
`NaN` and `0` are falsy, so both display as `0`. -/
def displayedAvgScore (calls : List Call) : ℤ :=
  match avgScore calls with
  | none => 0
  | some v => v

/-- The spec's reading of the average, for comparison: `Math.round` of the
arithmetic mean of `overall_score` over the calls that HAVE an
`overall_score` (the field is present, zero included), and `0` when no call
has one. -/
def specAvgScore (calls : List Call) : ℤ :=
  let scored := calls.filter fun c => c.overall_score.isSome
  if scored.length = 0 then 0
  else jsRound ((scored.foldl (fun sum c => sum + c.overall_score.getD 0) 0)
    / (scored.length : ℚ))

/-- `stats.totalCalls`. -/
def statsTotalCalls (calls : List Call) : Nat := calls.length

/-- `stats.completedAnalysis`. -/
def statsCompletedAnalysis (calls : List Call) : Nat :=
  (calls.filter fun c => c.analysis_status = some "completed").length

/-- Concrete server behaviour: every request of the pipeline resolves. -/
def envAllOk : PipelineEnv := ⟨some "call-1", true, true, true, none⟩

/-- Concrete server behaviour: the POST to `upload-call` rejects. -/
def envUploadRejects : PipelineEnv := ⟨none, true, true, true, none⟩

/-- Concrete call record whose `overall_score` is the number `0`. -/
def zeroScoreCall : Call := ⟨"c0", "a.mp3", some "completed", some 0⟩

/-- Concrete call record whose `overall_score` is the number `100`. -/
def hundredCall : Call := ⟨"c1", "b.mp3", some "completed", some 100⟩

/-- Concrete call record carrying no `overall_score` field. -/
def noScoreCall : Call := ⟨"c2", "c.mp3", some "pending", none⟩

/-- Claim C1: for every selected file, when the three pipeline requests all
resolve, the handler issues exactly one POST to `upload-call` carrying the
file, then one POST to `transcribe/` of the `call_id` returned by the upload
response, then one POST to `analyze/` of that id, in that order; the trace is
the sequential await chain, so each request completes before the next is
issued. -/
theorem upload_pipeline_posts (env : PipelineEnv) (f cid : String)
    (hu : env.uploadResult = some cid) (ht : env.transcribeOk = true)
    (ha : env.analyzeOk = true) :
    posts (handleFileUpload env (some f)) =
      [⟨.post, .uploadCall, some f⟩, ⟨.post, .transcribe cid, none⟩,
       ⟨.post, .analyze cid, none⟩] := by
  obtain ⟨u, t, a, fc, ed⟩ := env
  cases fc <;>
    simp_all [handleFileUpload, posts, requests, fetchCalls]

/-- Claim C1, witness: the POST sequence of a fully successful run at a
concrete environment and file. -/
theorem upload_pipeline_posts_witness :
    posts (handleFileUpload envAllOk (some "audio")) =
      [⟨.post, .uploadCall, some "audio"⟩, ⟨.post, .transcribe "call-1", none⟩,
       ⟨.post, .analyze "call-1", none⟩] :=
  upload_pipeline_posts envAllOk "audio" "call-1" rfl rfl rfl

/-- Claim C2: if any of the three pipeline requests rejects, an error toast
is shown, no subsequent pipeline endpoint is invoked and no request is
retried (the requests of the run are exactly the attempted prefix, without
duplicates), and replaying the run over the initial Dashboard state ends with
`uploading = false` and `uploadProgress = 0`, the initial values. -/
theorem upload_failure_cleanup (env : PipelineEnv) (f : String)
    (hfail : env.uploadResult = none ∨ env.transcribeOk = false ∨
      env.analyzeOk = false) :
    (∃ m, Event.toastError m ∈ handleFileUpload env (some f)) ∧
    (requests (handleFileUpload env (some f))).Nodup ∧
    runState initState (handleFileUpload env (some f)) = initState ∧
    (env.uploadResult = none →
      requests (handleFileUpload env (some f)) =
        [⟨.post, .uploadCall, some f⟩]) ∧
    (∀ cid, env.uploadResult = some cid → env.transcribeOk = false →
      requests (handleFileUpload env (some f)) =
        [⟨.post, .uploadCall, some f⟩, ⟨.post, .transcribe cid, none⟩]) ∧
    (∀ cid, env.uploadResult = some cid → env.transcribeOk = true →
        env.analyzeOk = false →
      requests (handleFileUpload env (some f)) =
        [⟨.post, .uploadCall, some f⟩, ⟨.post, .transcribe cid, none⟩,
         ⟨.post, .analyze cid, none⟩]) := by
  obtain ⟨u, t, a, fc, ed⟩ := env
  rcases u with _ | cid <;> cases t <;> cases a <;>
    simp_all [handleFileUpload, requests, uploadCatch, runState, applyEvent,
      initState]

/-- Claim C2, witness: the failure behaviour at a concrete environment whose
upload request rejects. -/
theorem upload_failure_cleanup_witness :
    (∃ m, Event.toastError m ∈ handleFileUpload envUploadRejects (some "audio")) ∧
    (requests (handleFileUpload envUploadRejects (some "audio"))).Nodup ∧
    runState initState (handleFileUpload envUploadRejects (some "audio")) =
      initState ∧
    (envUploadRejects.uploadResult = none →
      requests (handleFileUpload envUploadRejects (some "audio")) =
        [⟨.post, .uploadCall, some "audio"⟩]) ∧
    (∀ cid, envUploadRejects.uploadResult = some cid →
        envUploadRejects.transcribeOk = false →
      requests (handleFileUpload envUploadRejects (some "audio")) =
        [⟨.post, .uploadCall, some "audio"⟩, ⟨.post, .transcribe cid, none⟩]) ∧
    (∀ cid, envUploadRejects.uploadResult = some cid →
        envUploadRejects.transcribeOk = true →
        envUploadRejects.analyzeOk = false →
      requests (handleFileUpload envUploadRejects (some "audio")) =
        [⟨.post, .uploadCall, some "audio"⟩, ⟨.post, .transcribe cid, none⟩,
         ⟨.post, .analyze cid, none⟩]) :=
  upload_failure_cleanup envUploadRejects "audio" (Or.inl rfl)

/-- Claim C3: an upload run navigates somewhere if and only if all three
pipeline requests resolved, and on success the run's final event is the
navigation to the detail view of the uploaded call's id. -/
theorem upload_navigate_iff_success (env : PipelineEnv) (f : String) :
    (navigations (handleFileUpload env (some f)) ≠ [] ↔
      ∃ cid, env.uploadResult = some cid ∧ env.transcribeOk = true ∧
        env.analyzeOk = true) ∧
    (∀ cid, env.uploadResult = some cid → env.transcribeOk = true →
        env.analyzeOk = true →
      navigations (handleFileUpload env (some f)) = ["/call/" ++ cid] ∧
      (handleFileUpload env (some f)).getLast? =
        some (Event.navigate ("/call/" ++ cid))) := by
  obtain ⟨u, t, a, fc, ed⟩ := env
  rcases u with _ | cid0
  · simp [handleFileUpload, navigations, uploadCatch]
  · cases t
    · simp [handleFileUpload, navigations, uploadCatch]
    · cases a
      · simp [handleFileUpload, navigations, uploadCatch]
      · constructor
        · cases fc <;> simp [handleFileUpload, navigations, fetchCalls]
        · intro cid hcid ht ha
          injection hcid with h
          subst h
          cases fc <;> exact ⟨rfl, rfl⟩

/-- Claim C3, witness: navigation of a fully successful run at a concrete
environment. -/
theorem upload_navigate_iff_success_witness :
    (navigations (handleFileUpload envAllOk (some "audio")) ≠ [] ↔
      ∃ cid, envAllOk.uploadResult = some cid ∧ envAllOk.transcribeOk = true ∧
        envAllOk.analyzeOk = true) ∧
    (∀ cid, envAllOk.uploadResult = some cid → envAllOk.transcribeOk = true →
        envAllOk.analyzeOk = true →
      navigations (handleFileUpload envAllOk (some "audio")) =
        ["/call/" ++ cid] ∧
      (handleFileUpload envAllOk (some "audio")).getLast? =
        some (Event.navigate ("/call/" ++ cid))) :=
  upload_navigate_iff_success envAllOk "audio"

/-- Claim C4: in any upload run the values assigned to `uploadProgress` all
lie in the set 0, 10, 30, 50, 75, 100; the assignments before the final one
are strictly increasing (each completed step increases the value), and the
final assignment of the run is 0, whether the run succeeds or fails. -/
theorem upload_progress_profile (env : PipelineEnv) (f : String) :
    ∃ l, progressValues (handleFileUpload env (some f)) = l ++ [0] ∧
      List.Chain' (· < ·) l ∧
      ∀ v ∈ l ++ [0], v ∈ ([0, 10, 30, 50, 75, 100] : List ℕ) := by
  obtain ⟨u, t, a, fc, ed⟩ := env
  rcases u with _ | cid <;> cases t <;> cases a <;> cases fc <;>
    first
      | exact ⟨[10, 30], rfl, by norm_num [List.chain'_cons], by decide⟩
      | exact ⟨[10, 30, 50], rfl, by norm_num [List.chain'_cons], by decide⟩
      | exact ⟨[10, 30, 50, 75], rfl, by norm_num [List.chain'_cons],
          by decide⟩
      | exact ⟨[10, 30, 50, 75, 100], rfl, by norm_num [List.chain'_cons],
          by decide⟩

/-- Claim C4, witness: the progress profile of a fully successful run at a
concrete environment. -/
theorem upload_progress_profile_witness :
    ∃ l, progressValues (handleFileUpload envAllOk (some "audio")) = l ++ [0] ∧
      List.Chain' (· < ·) l ∧
      ∀ v ∈ l ++ [0], v ∈ ([0, 10, 30, 50, 75, 100] : List ℕ) :=
  upload_progress_profile envAllOk "audio"

/-- Claim C5: each user-visible operation issues exactly one HTTP request to
its fixed endpoint and nothing else: list calls is GET `calls`, fetch one
call is GET `calls/` of the id, the report request is GET with the id and
format in the path, and a successful upload run issues exactly the POSTs to
`upload-call`, `transcribe/` and `analyze/` followed by the refreshing GET of
`calls` (an invocation of the list-calls operation). -/
theorem one_request_per_operation :
    (∀ ok, requests (fetchCalls ok) = [⟨.get, .calls, none⟩]) ∧
    (∀ id ok, requests (fetchCallDetails id ok) =
      [⟨.get, .callById id, none⟩]) ∧
    (∀ id fmt fname resp, requests (handleExport id fmt fname resp) =
      [⟨.get, .exportReport id fmt, none⟩]) ∧
    (∀ env f cid, env.uploadResult = some cid → env.transcribeOk = true →
        env.analyzeOk = true →
      requests (handleFileUpload env (some f)) =
        [⟨.post, .uploadCall, some f⟩, ⟨.post, .transcribe cid, none⟩,
         ⟨.post, .analyze cid, none⟩, ⟨.get, .calls, none⟩]) := by
  refine ⟨?_, ?_, ?_, ?_⟩
  · intro ok; cases ok <;> rfl
  · intro id ok; cases ok <;> rfl
  · intro id fmt fname resp; cases resp <;> rfl
  · intro env f cid hu ht ha
    obtain ⟨u, t, a, fc, ed⟩ := env
    cases fc <;> simp_all [handleFileUpload, requests, fetchCalls]

/-- Claim C5, witness: the request lists at concrete inputs. -/
theorem one_request_per_operation_witness :
    requests (fetchCalls true) = [⟨.get, .calls, none⟩] ∧
    requests (handleFileUpload envAllOk (some "audio")) =
      [⟨.post, .uploadCall, some "audio"⟩, ⟨.post, .transcribe "call-1", none⟩,
       ⟨.post, .analyze "call-1", none⟩, ⟨.get, .calls, none⟩] :=
  ⟨one_request_per_operation.1 true,
   one_request_per_operation.2.2.2 envAllOk "audio" "call-1" rfl rfl rfl⟩

/-- Claim C6: when the report request resolves, the handler triggers exactly
one browser download whose payload is the response body and whose suggested
filename is the record's filename followed by `_report.` and the format, and
shows no error toast; when the request rejects, exactly the error toast is
shown and no download is triggered. -/
theorem export_download (callId fmt fname : String) :
    (∀ body, downloads (handleExport callId fmt fname (some body)) =
        [(body, fname ++ "_report." ++ fmt)] ∧
      errorToasts (handleExport callId fmt fname (some body)) = []) ∧
    (downloads (handleExport callId fmt fname none) = [] ∧
      errorToasts (handleExport callId fmt fname none) =
        ["Failed to export report"]) :=
  ⟨fun _ => ⟨rfl, rfl⟩, rfl, rfl⟩

/-- Claim C7, counterexample: `toString` is not one of the four documented
statuses, yet the badge does not fall back to Pending: the bracket access
finds the truthy inherited `Object.prototype.toString`, so the rendered
label is `undefined`, not `Pending`. -/
theorem status_badge_proto_counterexample :
    ("toString" : String) ∉
      (["pending", "processing", "completed", "failed"] : List String) ∧
    getStatusBadge (some "toString") ≠ ConfigValue.ownEntry pendingConfig ∧
    badgeLabel (getStatusBadge (some "toString")) ≠ some "Pending" := by
  refine ⟨by decide, by decide, by decide⟩

/-- Claim C7, amended: the four documented statuses map to the badges
labelled Pending, Processing, Completed and Failed; a missing status, and
any other status that is not a key inherited from `Object.prototype`, falls
back to the Pending badge; a status naming an inherited key yields that
truthy inherited value, so the badge renders with an undefined label instead
of Pending. -/
theorem status_badge_mapping :
    getStatusBadge (some "pending") = .ownEntry pendingConfig ∧
    getStatusBadge (some "processing") =
      .ownEntry ⟨"secondary", "Processing",
        some "bg-amber-500 hover:bg-amber-600"⟩ ∧
    getStatusBadge (some "completed") =
      .ownEntry ⟨"default", "Completed",
        some "bg-emerald-500 hover:bg-emerald-600"⟩ ∧
    getStatusBadge (some "failed") = .ownEntry ⟨"destructive", "Failed", none⟩ ∧
    getStatusBadge none = .ownEntry pendingConfig ∧
    (∀ s, s ∉ (["pending", "processing", "completed", "failed"] : List String) →
      s ∉ objectProtoKeys →
      getStatusBadge (some s) = .ownEntry pendingConfig) ∧
    (∀ s, s ∈ objectProtoKeys →
      badgeLabel (getStatusBadge (some s)) = none) := by
  refine ⟨by decide, by decide, by decide, by decide, rfl, ?_, by decide⟩
  intro s hs hp
  simp only [List.mem_cons, List.not_mem_nil, or_false, not_or] at hs
  obtain ⟨h1, h2, h3, h4⟩ := hs
  simp [getStatusBadge, statusLookup, statusConfig, h1, h2, h3, h4, hp]

/-- Claim C7, witness: an unknown status that is no `Object.prototype` key
falls back to the Pending badge, and the inherited key `valueOf` yields an
undefined label. -/
theorem status_badge_mapping_witness :
    (("in-progress" : String) ∉
      (["pending", "processing", "completed", "failed"] : List String) ∧
     ("in-progress" : String) ∉ objectProtoKeys ∧
     getStatusBadge (some "in-progress") = .ownEntry pendingConfig) ∧
    (("valueOf" : String) ∈ objectProtoKeys ∧
     badgeLabel (getStatusBadge (some "valueOf")) = none) :=
  ⟨⟨by decide, by decide,
    status_badge_mapping.2.2.2.2.2.1 "in-progress" (by decide) (by decide)⟩,
   by decide, status_badge_mapping.2.2.2.2.2.2 "valueOf" (by decide)⟩

/-- Claim C8, counterexample: a call whose `overall_score` is the number 0,
which lies in the range 0-100, renders a dash, not `0/100`, because the
conditional tests JavaScript truthiness and 0 is falsy. -/
theorem score_cell_zero_counterexample :
    zeroScoreCall.overall_score = some 0 ∧ (0 : ℚ) ≤ 0 ∧ (0 : ℚ) ≤ 100 ∧
    renderScore zeroScoreCall = "-" ∧ renderScore zeroScoreCall ≠ "0/100" :=
  ⟨rfl, le_refl 0, by norm_num, rfl, by decide⟩

/-- Claim C8, amended: for every call whose `overall_score` is a nonzero
integer (in particular every integer score in 1-100) the Score column
displays the integer's decimal string followed by `/100`, exactly as
JavaScript interpolates the number; the dash is displayed both for calls
without a score and for a score of exactly 0. -/
theorem score_cell_rendering (c : Call) :
    (∀ n : ℤ, c.overall_score = some (n : ℚ) → n ≠ 0 →
      renderScore c = toString n ++ "/100") ∧
    (c.overall_score = none → renderScore c = "-") ∧
    (c.overall_score = some 0 → renderScore c = "-") := by
  obtain ⟨i, fn, st, sc⟩ := c
  refine ⟨?_, ?_, ?_⟩
  · intro n hq hn0
    cases sc with
    | none => simp at hq
    | some v =>
      injection hq with h
      subst h
      simp [renderScore, hasTruthyScore, Int.cast_ne_zero.mpr hn0]
      rfl
  · intro h
    cases sc with
    | none => rfl
    | some v => simp at h
  · intro h
    cases sc with
    | none => simp at h
    | some v =>
      injection h with h'
      subst h'
      simp [renderScore, hasTruthyScore]

/-- Claim C8, witness: the three rendering cases at concrete calls. -/
theorem score_cell_rendering_witness :
    hundredCall.overall_score = some ((100 : ℤ) : ℚ) ∧
    renderScore hundredCall = toString (100 : ℤ) ++ "/100" ∧
    renderScore noScoreCall = "-" ∧ renderScore zeroScoreCall = "-" :=
  ⟨by decide,
   (score_cell_rendering hundredCall).1 100 (by decide) (by decide),
   (score_cell_rendering noScoreCall).2.1 rfl,
   (score_cell_rendering zeroScoreCall).2.2 rfl⟩

/-- Claim C9, counterexample: with one zero-score call and one 100-score call
the displayed average is 100, while the claim's reading (round of the mean
over the calls that have an `overall_score`, zero included) gives 50; and
with a single scoreless call the division is evaluated (`calls.length > 0`)
with divisor 0. -/
theorem avg_score_counterexample :
    displayedAvgScore [zeroScoreCall, hundredCall] = 100 ∧
    specAvgScore [zeroScoreCall, hundredCall] = 50 ∧
    avgDivisionEvaluated [noScoreCall] ∧ avgDivisor [noScoreCall] = 0 := by
  refine ⟨?_, ?_, by simp [avgDivisionEvaluated], by decide⟩
  · norm_num [displayedAvgScore, avgScore, avgDivisor, scoredCalls, scoreSum,
      hasTruthyScore, jsRound, zeroScoreCall, hundredCall, List.filter]
  · norm_num [specAvgScore, jsRound, zeroScoreCall, hundredCall, List.filter]

/-- Claim C9, amended: the displayed Average Score equals `Math.round` of the
mean of `overall_score` over the calls with a truthy (present and nonzero)
score when at least one such call exists, and 0 otherwise; when the list is
nonempty but carries no truthy score the division IS evaluated with divisor 0
(0 divided by 0 is `NaN` in JavaScript), and the displayed figure is 0 only
because the rendering falls back on `NaN`. -/
theorem avg_score_display (calls : List Call) :
    (scoredCalls calls ≠ [] →
      displayedAvgScore calls =
        jsRound (scoreSum calls / ((scoredCalls calls).length : ℚ))) ∧
    (scoredCalls calls = [] → displayedAvgScore calls = 0) := by
  constructor
  · intro h
    have hlen : 0 < (scoredCalls calls).length := List.length_pos.mpr h
    have hc : 0 < calls.length :=
      lt_of_lt_of_le hlen (List.length_filter_le _ calls)
    simp [displayedAvgScore, avgScore, avgDivisor, hc, hlen.ne']
  · intro h
    by_cases hc : 0 < calls.length
    · simp [displayedAvgScore, avgScore, avgDivisor, h, hc]
    · simp [displayedAvgScore, avgScore, hc]

/-- Claim C9, witness: the average display at a concrete one-element list
with a truthy score. -/
theorem avg_score_display_witness :
    scoredCalls [hundredCall] ≠ [] ∧
    displayedAvgScore [hundredCall] =
      jsRound (scoreSum [hundredCall] / ((scoredCalls [hundredCall]).length : ℚ)) :=
  ⟨by decide, (avg_score_display [hundredCall]).1 (by decide)⟩

/-- Claim C10: when the change event carries no file the handler returns at
once: its trace is empty, so no HTTP request is issued and replaying it
leaves the upload state at its prior values, `false` and 0. -/
theorem no_file_no_effect (env : PipelineEnv) :
    handleFileUpload env none = [] ∧
    requests (handleFileUpload env none) = [] ∧
    runState initState (handleFileUpload env none) = initState :=
  ⟨rfl, rfl, rfl⟩

end CallAnalyzer
